import Mathlib

/-!
Verification of the avoidance core of the behavior path planner.

The definitions below are a shallow embedding of the avoidance utilities
(src/unnamed/part_002) and of isComfortable
(src/planning/behavior_path_planner/include/behavior_path_planner/scene_module/avoidance/avoidance_module.hpp).
Machine doubles are modelled as rationals.  Geometric and map library
calls that the repository does not define (boost::geometry, lanelet2,
tier4_autoware_utils, the route handler) are either given concrete
rational models or passed in as explicit inputs, as noted on each
definition.  Euclidean distances enter the code only through comparisons
and maxima, so they are represented by squared distances wherever a
threshold comparison is embedded (d < t iff d^2 < t^2 for nonnegative d, t).
-/

/-- A planar point with rational coordinates: the model of
geometry_msgs Point / boost point_xy, which hold doubles. -/
structure Pt where
  x : ℚ
  y : ℚ
deriving DecidableEq, Repr

/-- Squared euclidean distance between two points: the square of
tier4_autoware_utils::calcDistance2d. -/
def distSq (a b : Pt) : ℚ :=
  (a.x - b.x) ^ 2 + (a.y - b.y) ^ 2

/-- The closed edge list of a polygon: the segment from poly[i] to
poly[(i+1) % size] for every index i, the iteration order of both
isWithinCrosswalk and extendToRoadShoulderDistanceWithPolygon. -/
def polygonEdges (poly : List Pt) : List (Pt × Pt) :=
  poly.zip (poly.drop 1 ++ poly.take 1)

/-- Squared distance from a point to a segment: the square of the
pointwise euclidean distance used by boost::geometry::distance on a
segment, computed by projecting onto the segment and clamping. -/
def segDistSq (p a b : Pt) : ℚ :=
  let dx := b.x - a.x
  let dy := b.y - a.y
  let len2 := dx ^ 2 + dy ^ 2
  if len2 = 0 then distSq p a
  else
    let t := ((p.x - a.x) * dx + (p.y - a.y) * dy) / len2
    if t ≤ 0 then distSq p a
    else if 1 ≤ t then distSq p b
    else distSq p ⟨a.x + t * dx, a.y + t * dy⟩

/-- Even-odd (crossing count) point-in-polygon test over the rationals:
the model of a point lying inside a boost polygon, where
boost::geometry::distance returns zero. -/
def pointInPolygon (p : Pt) (poly : List Pt) : Bool :=
  (polygonEdges poly).foldl
    (fun inside e =>
      let a := e.1
      let b := e.2
      if (decide (a.y > p.y) != decide (b.y > p.y)) &&
          decide (p.x < a.x + (p.y - a.y) * (b.x - a.x) / (b.y - a.y)) then
        !inside
      else inside)
    false

/-- boost::geometry::distance from a point to a polygon compared against a
nonnegative threshold: zero when the point is inside (hence below any
positive threshold), otherwise the least distance to a boundary edge,
compared through squares. -/
def distToPolygonLt (p : Pt) (poly : List Pt) (threshold : ℚ) : Bool :=
  (pointInPolygon p poly && decide (0 < threshold)) ||
    (polygonEdges poly).any (fun e => decide (segDistSq p e.1 e.2 < threshold ^ 2))

/-! ## getCurrentLanesFromPath (part_002, around line 638) -/

/-- One reference-path point, reduced to its lane-id list - the only field
getCurrentLanesFromPath inspects before querying the route handler. -/
structure PathPointLane where
  lane_ids : List Nat
deriving DecidableEq, Repr

/-- getCurrentLanesFromPath: throws std::logic_error("empty path.") on an
empty path, std::logic_error("empty lane ids.") on an empty first lane-id
list, and otherwise returns the route handler's lanelet sequence for the
first lane id of the first point.  The route handler's
getLaneletsFromId + getLaneletSequence answer is the input laneSeq; the
throw is embedded as Except.error. -/
def getCurrentLanesFromPath (path_points : List PathPointLane)
    (laneSeq : Nat → List Nat) : Except String (List Nat) :=
  match path_points with
  | [] => Except.error ("empty path.")
  | pt :: _ =>
    match pt.lane_ids with
    | [] => Except.error ("empty lane ids.")
    | start_id :: _ => Except.ok (laneSeq start_id)

/-! ## AvoidLine, combineRawShiftLinesWithUniqueCheck (part_002, line 1464),
isComfortable (avoidance_module.hpp, line 505) -/

/-- AvoidLine: one lateral shift directive.  Poses are reduced to their
planar positions; the field endp stands for the source field end, a
reserved word in Lean.  object_id is the id of the parent object
(a.object.object.object_id in the source). -/
structure AvoidLine where
  start : Pt
  endp : Pt
  start_shift_length : ℚ
  end_shift_length : ℚ
  start_longitudinal : ℚ
  end_longitudinal : ℚ
  object_id : Nat
deriving DecidableEq, Repr

/-- The isSimilar lambda of combineRawShiftLinesWithUniqueCheck: not
similar when the start poses are more than 1.0 apart, the end poses are
more than 1.0 apart, or the end shift lengths differ by more than 0.5.
calcDistance2d p q > 1.0 is expressed as distSq p q > 1 (both sides are
nonnegative and 1.0 squared is 1.0). -/
def isSimilar (a b : AvoidLine) : Bool :=
  if distSq a.start b.start > 1 then false
  else if distSq a.endp b.endp > 1 then false
  else if |a.end_shift_length - b.end_shift_length| > 1 / 2 then false
  else true

/-- The hasSameObjectId lambda of combineRawShiftLinesWithUniqueCheck. -/
def hasSameObjectId (a b : AvoidLine) : Bool :=
  a.object_id == b.object_id

/-- combineRawShiftLinesWithUniqueCheck: starts from the base (registered)
lines and appends each added line unless some base line shares its parent
object id and is similar to it (the skip flag of the source loop). -/
def combineRawShiftLinesWithUniqueCheck (base_lines added_lines : List AvoidLine) :
    List AvoidLine :=
  added_lines.foldl
    (fun combined added_line =>
      if base_lines.any (fun base_line =>
          hasSameObjectId added_line base_line && isSimilar added_line base_line) then
        combined
      else combined ++ [added_line])
    base_lines

/-- Modelled from the spec: the relative shift length of an AvoidLine, the
change of lateral offset over its interval ("shift the path by
end_shift_length over a longitudinal interval"); the getter
getRelativeLength is declared outside the repository's files. -/
def getRelativeLength (l : AvoidLine) : ℚ :=
  l.end_shift_length - l.start_shift_length

/-- Modelled from the spec: the relative longitudinal distance of an
AvoidLine over its interval [start_longitudinal, end_longitudinal]; the
getter getRelativeLongitudinal is declared outside the repository's
files. -/
def getRelativeLongitudinal (l : AvoidLine) : ℚ :=
  l.end_longitudinal - l.start_longitudinal

/-- isComfortable (avoidance_module.hpp): all_of over the shift lines,
comparing the jerk PathShifter::calcJerkFromLatLonDistance computes from
the line's relative shift length, relative longitudinal distance and the
avoidance ego speed against the lateral max jerk limit.
calcJerkFromLatLonDistance is defined outside the repository's files
(PathShifter sources are absent), so the closed-form jerk-from-distance
relation of the spec is the abstract input calcJerk. -/
def isComfortable (calcJerk : ℚ → ℚ → ℚ → ℚ) (ego_speed jerk_limit : ℚ)
    (shift_lines : List AvoidLine) : Bool :=
  shift_lines.all (fun line =>
    decide (calcJerk (getRelativeLength line) (getRelativeLongitudinal line) ego_speed
      < jerk_limit))

/-! ## fillAvoidanceNecessity (part_002, line 782) -/

/-- One entry of the registered-objects collection, reduced to the fields
fillAvoidanceNecessity reads. -/
structure RegisteredNecessity where
  object_id : Nat
  avoid_required : Bool
deriving DecidableEq, Repr

/-- The check_necessity lambda of fillAvoidanceNecessity: an object on the
right compares |overhang_dist|, an object on the left compares
overhang_dist, against safety_margin * hysteresis_factor. -/
def checkNecessity (is_on_right : Bool)
    (overhang_dist safety_margin hysteresis_factor : ℚ) : Bool :=
  (is_on_right && decide (|overhang_dist| < safety_margin * hysteresis_factor)) ||
    (!is_on_right && decide (overhang_dist < safety_margin * hysteresis_factor))

/-- fillAvoidanceNecessity: safety_margin is
0.5*vehicle_width + safety_buffer_lateral*distance_factor; a first-time
object and an object registered with avoid_required false are checked with
hysteresis factor 1.0, an object registered with avoid_required true is
checked with the expanded factor hysteresis_factor_expand_rate.  Returns
the avoid_required flag written into the object. -/
def fillAvoidanceNecessity (object_id : Nat) (is_on_right : Bool)
    (overhang_dist vehicle_width safety_buffer_lateral distance_factor
      hysteresis_factor_expand_rate : ℚ)
    (registered_objects : List RegisteredNecessity) : Bool :=
  let safety_margin := 1 / 2 * vehicle_width + safety_buffer_lateral * distance_factor
  match registered_objects.find? (fun o => o.object_id == object_id) with
  | none => checkNecessity is_on_right overhang_dist safety_margin 1
  | some same_id_obj =>
    if !same_id_obj.avoid_required then
      checkNecessity is_on_right overhang_dist safety_margin 1
    else
      checkNecessity is_on_right overhang_dist safety_margin hysteresis_factor_expand_rate

/-! ## The avoid-margin selection of filterTargetObjects (part_002, lines
1088-1111) -/

/-- The avoid_margin computation of filterTargetObjects, translated from
the source: max/min avoid margins and the soft/hard lateral distance
limits derived from to_road_shoulder_distance, then the three-step
selection (infeasible / expand to the minimum margin / soft-limited). -/
def avoidMarginFor (safety_buffer_lateral avoid_margin_lateral distance_factor
    vehicle_width soft_road_shoulder_margin hard_road_shoulder_margin
    to_road_shoulder_distance : ℚ) : Option ℚ :=
  let max_avoid_margin := safety_buffer_lateral * distance_factor + avoid_margin_lateral +
    1 / 2 * vehicle_width
  let min_avoid_margin := safety_buffer_lateral + 1 / 2 * vehicle_width
  let soft_lateral_distance_limit :=
    to_road_shoulder_distance - soft_road_shoulder_margin - 1 / 2 * vehicle_width
  let hard_lateral_distance_limit :=
    to_road_shoulder_distance - hard_road_shoulder_margin - 1 / 2 * vehicle_width
  if hard_lateral_distance_limit < min_avoid_margin then none
  else if soft_lateral_distance_limit < min_avoid_margin then some min_avoid_margin
  else some (min soft_lateral_distance_limit max_avoid_margin)

/-- The avoid-margin selection as the spec words it, written from the spec
sentence alone for the refinement statement: max_avoid_margin =
safety_buffer_lateral*distance_factor + avoid_margin_lateral +
0.5*vehicle_width, min_avoid_margin = safety_buffer_lateral +
0.5*vehicle_width, soft/hard limits obtained by subtracting the configured
soft/hard road-shoulder margin and half the vehicle width from
to_road_shoulder_distance; none if hard_limit < min_avoid_margin, else
min_avoid_margin if soft_limit < min_avoid_margin, else
min(soft_limit, max_avoid_margin). -/
def avoidMarginSpec (safety_buffer_lateral avoid_margin_lateral distance_factor
    vehicle_width soft_road_shoulder_margin hard_road_shoulder_margin
    to_road_shoulder_distance : ℚ) : Option ℚ :=
  let max_avoid_margin := safety_buffer_lateral * distance_factor + avoid_margin_lateral +
    1 / 2 * vehicle_width
  let min_avoid_margin := safety_buffer_lateral + 1 / 2 * vehicle_width
  let soft_limit :=
    to_road_shoulder_distance - soft_road_shoulder_margin - 1 / 2 * vehicle_width
  let hard_limit :=
    to_road_shoulder_distance - hard_road_shoulder_margin - 1 / 2 * vehicle_width
  if hard_limit < min_avoid_margin then none
  else if soft_limit < min_avoid_margin then some min_avoid_margin
  else some (min soft_limit max_avoid_margin)

/-! ## extendToRoadShoulderDistanceWithPolygon (part_002, line 1315) -/

/-- Model of tier4_autoware_utils::intersect (library code outside the
repository): segment-segment intersection, none when the determinant
vanishes or an intersection parameter leaves [0, 1]. -/
def segmentIntersect (p1 p2 p3 p4 : Pt) : Option Pt :=
  let det := (p1.x - p2.x) * (p4.y - p3.y) - (p4.x - p3.x) * (p1.y - p2.y)
  if det = 0 then none
  else
    let t := ((p4.y - p3.y) * (p4.x - p2.x) + (p3.x - p4.x) * (p4.y - p2.y)) / det
    let s := ((p2.y - p1.y) * (p4.x - p2.x) + (p1.x - p2.x) * (p4.y - p2.y)) / det
    if t < 0 ∨ 1 < t ∨ s < 0 ∨ 1 < s then none
    else some ⟨t * p1.x + (1 - t) * p2.x, t * p1.y + (1 - t) * p2.y⟩

/-- extendToRoadShoulderDistanceWithPolygon.  The expandable polygons the
source collects from hatched-road-marking and intersection-area lookups
are given directly (an empty list when none exist); the closest point of
the target line, which the source obtains through lanelet arc coordinates,
is the input closest_target_line_point; the euclidean point distance
tier4_autoware_utils::calcDistance2d is the input dist2d.  The source
computes ratio = 100.0 / to_road_shoulder_distance with no guard on the
denominator once the expandable polygon list is nonempty; real division is
undefined at a zero denominator, so the embedding returns none exactly
when that unguarded division is reached with a zero denominator. -/
def extendToRoadShoulderDistanceWithPolygon
    (dist2d : Pt → Pt → ℚ)
    (expandable_polygons : List (List Pt))
    (closest_target_line_point overhang_pos : Pt)
    (to_road_shoulder_distance : ℚ) : Option ℚ :=
  if expandable_polygons.isEmpty then some to_road_shoulder_distance
  else if to_road_shoulder_distance = 0 then none
  else
    let r := 100 / to_road_shoulder_distance
    let lat_offset_overhang_pos : Pt :=
      ⟨closest_target_line_point.x + (closest_target_line_point.x - overhang_pos.x) * r,
        closest_target_line_point.y + (closest_target_line_point.y - overhang_pos.y) * r⟩
    some (expandable_polygons.foldl
      (fun updated poly =>
        let intersect_dist_vec := (polygonEdges poly).filterMap
          (fun e =>
            (segmentIntersect overhang_pos lat_offset_overhang_pos e.1 e.2).map
              (fun ip => dist2d ip overhang_pos))
        match intersect_dist_vec with
        | [] => updated
        | d :: ds => max updated (ds.foldl max d))
      to_road_shoulder_distance)

/-! ## fillObjectEnvelopePolygon (part_002, line 688)

createEnvelopePolygon transforms the object polygon into the frame of the
closest reference-path pose, takes the axis-aligned bounding box there,
transforms back and expands it by the buffer.  For one object identity the
closest pose is fixed, so the embedding works in that frame throughout:
polygons are vertex lists, envelopes are boxes in that frame. -/

/-- An axis-aligned box in the closest-pose frame: the shape of every
envelope polygon the source produces. -/
structure Box where
  xmin : ℚ
  xmax : ℚ
  ymin : ℚ
  ymax : ℚ
deriving DecidableEq, Repr

/-- A box with nonnegative extents. -/
def validBox (b : Box) : Bool :=
  decide (b.xmin ≤ b.xmax) && decide (b.ymin ≤ b.ymax)

/-- One step of the bounding-box accumulation. -/
def bboxStep (b : Box) (q : Pt) : Box :=
  ⟨min b.xmin q.x, max b.xmax q.x, min b.ymin q.y, max b.ymax q.y⟩

/-- Bounding-box accumulation over a vertex list. -/
def bboxFold (b : Box) : List Pt → Box
  | [] => b
  | q :: qs => bboxFold (bboxStep b q) qs

/-- The axis-aligned bounding box of a vertex list
(boost::geometry::return_envelope in the closest-pose frame). -/
def bboxOf : List Pt → Box
  | [] => ⟨0, 0, 0, 0⟩
  | p :: ps => bboxFold ⟨p.x, p.x, p.y, p.y⟩ ps

/-- tier4_autoware_utils::expandPolygon on a box: offset every side
outward by the margin. -/
def expandBox (b : Box) (margin : ℚ) : Box :=
  ⟨b.xmin - margin, b.xmax + margin, b.ymin - margin, b.ymax + margin⟩

/-- The vertex list of a box, counter-clockwise from the lower-left
corner. -/
def boxCorners (b : Box) : List Pt :=
  [⟨b.xmin, b.ymin⟩, ⟨b.xmax, b.ymin⟩, ⟨b.xmax, b.ymax⟩, ⟨b.xmin, b.ymax⟩]

/-- boost::geometry::within on two boxes: the first lies inside the
second. -/
def boxWithin (a b : Box) : Bool :=
  decide (b.xmin ≤ a.xmin) && decide (a.xmax ≤ b.xmax) &&
    decide (b.ymin ≤ a.ymin) && decide (a.ymax ≤ b.ymax)

/-- Two boxes overlap or touch. -/
def boxesIntersect (a b : Box) : Bool :=
  decide (a.xmin ≤ b.xmax) && decide (b.xmin ≤ a.xmax) &&
    decide (a.ymin ≤ b.ymax) && decide (b.ymin ≤ a.ymax)

/-- Area of a box. -/
def boxArea (b : Box) : ℚ :=
  (b.xmax - b.xmin) * (b.ymax - b.ymin)

/-- createEnvelopePolygon on a vertex list: the bounding box in the
closest-pose frame, expanded by the buffer. -/
def createEnvelopePolygon (poly : List Pt) (envelope_buffer : ℚ) : Box :=
  expandBox (bboxOf poly) envelope_buffer

/-- Envelope-level model of boost::geometry::union_ on two boxes: two
intersecting boxes union into a single polygon whose vertex set spans both
boxes (all the later bounding-box computation reads from it); disjoint
boxes stay two separate polygons.  The output is never empty, matching
boost on valid inputs. -/
def boostUnion (a b : Box) : List (List Pt) :=
  if boxesIntersect a b then [boxCorners a ++ boxCorners b]
  else [boxCorners a, boxCorners b]

/-- fillObjectEnvelopePolygon: with no registered object of the same id
the envelope is the fresh one; with one, the fresh envelope is kept inside
the prior envelope (the prior is reused), or the two are unioned and the
envelope of the union (buffer 0) is taken; an empty union falls back to
the fresh envelope.  footprint is the object polygon in the closest-pose
frame, envelope_buffer_margin the per-type buffer already scaled by the
distance factor, registered_objects the (id, envelope) pairs of the
registered collection. -/
def fillObjectEnvelopePolygon (object_id : Nat) (footprint : List Pt)
    (envelope_buffer_margin : ℚ) (registered_objects : List (Nat × Box)) : Box :=
  match registered_objects.find? (fun o => o.1 == object_id) with
  | none => createEnvelopePolygon footprint envelope_buffer_margin
  | some same_id_obj =>
    let envelope_poly := createEnvelopePolygon footprint envelope_buffer_margin
    if boxWithin envelope_poly same_id_obj.2 then same_id_obj.2
    else
      match boostUnion envelope_poly same_id_obj.2 with
      | [] => createEnvelopePolygon footprint envelope_buffer_margin
      | u :: _ => createEnvelopePolygon u 0

/-! ## filterTargetObjects (part_002, lines 942-1313)

The loop body of filterTargetObjects is embedded per object as
classifyObject.  Route-handler and lanelet-geometry answers that the
source obtains per object (closest lanelet, conflicting crosswalks, the
road-shoulder distance block, traffic-light and crosswalk distances, the
ego-lane containment test, lane attributes and arc coordinates) are
fields of the per-object input record, so that one run is a function of
the object list, the planning data and those answers. -/

/-- autoware_auto_perception_msgs ObjectClassification labels. -/
inductive ObjClass
  | unknown
  | car
  | truck
  | bus
  | trailer
  | motorcycle
  | bicycle
  | pedestrian
deriving DecidableEq, Repr

/-- The per-classification entry of AvoidanceParameters::object_parameters
reduced to the fields the embedded functions read. -/
structure ObjectParameter where
  is_target : Bool
  moving_time_threshold : ℚ
  safety_buffer_lateral : ℚ
  avoid_margin_lateral : ℚ
deriving DecidableEq, Repr

/-- AvoidanceParameters reduced to the fields filterTargetObjects reads.
object_parameters models the std::map dereferenced with .at as a total
function; object_parameters_count models map.count(type) != 0.
object_check_shiftable_rate stands for the source parameter
object_check_shiftable_ratio. -/
structure AvoidanceParameters where
  object_parameters : ObjClass → ObjectParameter
  object_parameters_count : ObjClass → Bool
  object_check_backward_distance : ℚ
  object_check_max_forward_distance : ℚ
  object_check_goal_distance : ℚ
  soft_road_shoulder_margin : ℚ
  hard_road_shoulder_margin : ℚ
  lateral_execution_threshold : ℚ
  enable_force_avoidance_for_stopped_vehicle : Bool
  threshold_time_force_avoidance_for_stopped_vehicle : ℚ
  object_ignore_section_traffic_light_in_front_distance : ℚ
  object_ignore_section_crosswalk_in_front_distance : ℚ
  object_ignore_section_crosswalk_behind_distance : ℚ
  threshold_distance_object_is_on_center : ℚ
  object_check_shiftable_rate : ℚ
  object_check_min_road_shoulder_width : ℚ

/-- One object entering the filter loop: the ObjectData fields the loop
reads, plus the per-object route/geometry answers (see the section
comment).  to_road_shoulder_distance is the value after the shoulder
distance block including extendToRoadShoulderDistanceWithPolygon;
to_crosswalk_ego is utils::getDistanceToCrosswalk measured from the ego
pose, from which the loop subtracts the object's longitudinal position;
center_to_boundary, shape_dim_y, sub_type_is_road_shoulder and
arc_distance feed the parked-vehicle heuristic of the relevant side. -/
structure ObjIn where
  object_id : Nat
  classification : ObjClass
  move_time : ℚ
  stop_time : ℚ
  longitudinal : ℚ
  length : ℚ
  lateral : ℚ
  overhang_dist : ℚ
  distance_factor : ℚ
  position : Pt
  crosswalk_polygons : List (List Pt)
  closest_lanelet_found : Bool
  to_road_shoulder_distance : ℚ
  to_traffic_light : ℚ
  to_crosswalk_ego : ℚ
  is_in_ego_lane : Bool
  turn_direction : String
  center_to_boundary : ℚ
  shape_dim_y : ℚ
  sub_type_is_road_shoulder : Bool
  arc_distance : ℚ
deriving DecidableEq, Repr

/-- isOnRight (part_002, line 257): the object's lateral offset is
negative. -/
def isOnRight (o : ObjIn) : Bool :=
  decide (o.lateral < 0)

/-- isTargetObjectType (part_002, line 262): false when the classification
has no configured entry, else that entry's is_target flag. -/
def isTargetObjectType (p : AvoidanceParameters) (o : ObjIn) : Bool :=
  if !p.object_parameters_count o.classification then false
  else (p.object_parameters o.classification).is_target

/-- isVehicleTypeObject (part_002, line 274): unknown, pedestrian and
bicycle are not vehicles. -/
def isVehicleTypeObject (o : ObjIn) : Bool :=
  if o.classification == ObjClass.unknown then false
  else if o.classification == ObjClass.pedestrian then false
  else if o.classification == ObjClass.bicycle then false
  else true

/-- isWithinCrosswalk (part_002, line 293): some conflicting crosswalk
polygon of the object's overhang lanelet lies within 2.0 of the object's
position.  The conflicting polygons returned by the routing graph are the
object's crosswalk_polygons field. -/
def isWithinCrosswalk (o : ObjIn) : Bool :=
  o.crosswalk_polygons.any (fun poly => distToPolygonLt o.position poly 2)

/-- calcShiftLength (part_002, line 322): overhang plus the margin for an
object on the right, minus it on the left, snapped to zero below 1e-3. -/
def calcShiftLength (is_object_on_right : Bool) (overhang_dist avoid_margin : ℚ) : ℚ :=
  let shift_length :=
    if is_object_on_right then overhang_dist + avoid_margin
    else overhang_dist - avoid_margin
  if |shift_length| > 1 / 1000 then shift_length else 0

/-- isShiftNecessary (part_002, line 330): a right-side object needs a
nonnegative shift, a left-side object a nonpositive one. -/
def isShiftNecessary (is_object_on_right : Bool) (shift_length : ℚ) : Bool :=
  if is_object_on_right ∧ shift_length < 0 then false
  else if ¬is_object_on_right = true ∧ shift_length > 0 then false
  else true

/-- The shift-length screening applied when an avoid margin was derived
(filterTargetObjects, lines 1113-1126): NotNeedAvoidance when the shift
direction is wrong, LessThanExecutionThreshold when its magnitude is below
the execution threshold; none when the object survives or no margin
exists. -/
def rejectedByShiftCheck (p : AvoidanceParameters) (o : ObjIn)
    (avoid_margin : Option ℚ) : Option String :=
  match avoid_margin with
  | none => none
  | some m =>
    let shift_length := calcShiftLength (isOnRight o) o.overhang_dist m
    if !isShiftNecessary (isOnRight o) shift_length then some ("NotNeedAvoidance")
    else if |shift_length| < p.lateral_execution_threshold then
      some ("LessThanExecutionThreshold")
    else none

/-- The force-avoidance short circuit for stopped vehicles
(filterTargetObjects, lines 1146-1181): active when the stop time exceeds
the force threshold and the feature is enabled, and the object is not
explained as stopped for a traffic light in front or a crosswalk
around. -/
def forceAvoidanceTarget (p : AvoidanceParameters) (o : ObjIn) : Bool :=
  if decide (o.stop_time > p.threshold_time_force_avoidance_for_stopped_vehicle) &&
      p.enable_force_avoidance_for_stopped_vehicle then
    let not_parked_tl :=
      decide (o.to_traffic_light < p.object_ignore_section_traffic_light_in_front_distance)
    let to_crosswalk := o.to_crosswalk_ego - o.longitudinal
    let stop_for_crosswalk :=
      decide (to_crosswalk < p.object_ignore_section_crosswalk_in_front_distance) &&
        decide (to_crosswalk > -1 * p.object_ignore_section_crosswalk_behind_distance)
    !(not_parked_tl || stop_for_crosswalk)
  else false

/-- The parked-vehicle heuristic of the side the object is on
(filterTargetObjects, lines 1213-1295): shiftable distance from the lane
center to the relevant boundary minus half the object width, widened by
the minimum road-shoulder width unless the boundary lanelet is a road
shoulder; the object counts as parked when its (sign-adjusted) arc
distance over that shiftable distance exceeds the configured rate. -/
def isParkedVehicle (p : AvoidanceParameters) (o : ObjIn) : Bool :=
  let object_shiftable_distance := o.center_to_boundary - 1 / 2 * o.shape_dim_y +
    (if !o.sub_type_is_road_shoulder then p.object_check_min_road_shoulder_width else 0)
  let shiftable_rate :=
    (if isOnRight o then -1 * o.arc_distance else o.arc_distance) / object_shiftable_distance
  decide (shiftable_rate > p.object_check_shiftable_rate)

/-- Where the loop body leaves an object: pushed to data.target_objects,
pushed to data.other_objects, or neither (the bare continue when no
closest lanelet within the route is found). -/
inductive Dest
  | toTarget
  | toOther
  | dropped
deriving DecidableEq, Repr

/-- The fields of the object the loop body writes that the claims
observe: the destination, the reason string, the stored avoid margin and
the last_seen stamp. -/
structure ObjOut where
  dest : Dest
  reason : String
  avoid_margin : Option ℚ
  last_seen : Option ℚ
deriving DecidableEq, Repr

/-- An object pushed to other_objects with a reason; neither avoid_margin
nor last_seen is written on that path. -/
def mkOther (reason : String) : ObjOut :=
  ⟨Dest.toOther, reason, none, none⟩

/-- An object pushed to target_objects: the source sets o.last_seen = now
and o.avoid_margin = avoid_margin right before every target push. -/
def mkTarget (avoid_margin : Option ℚ) (now : ℚ) : ObjOut :=
  ⟨Dest.toTarget, "", avoid_margin, some now⟩

/-- An object silently dropped by the bare continue. -/
def mkDropped : ObjOut :=
  ⟨Dest.dropped, "", none, none⟩

/-- The loop body of filterTargetObjects for one object, in source order:
type check, moving check, backward/forward/goal distance checks, the bare
continue when no closest lanelet is found, margin computation and
shift-length screening, the non-vehicle crosswalk branch, force avoidance
for stopped vehicles, the centerline check, and the ego-lane
parked-vehicle check. -/
def classifyObject (p : AvoidanceParameters) (vehicle_width dist_to_goal now : ℚ)
    (o : ObjIn) : ObjOut :=
  let object_parameter := p.object_parameters o.classification
  if !isTargetObjectType p o then mkOther ("OBJECT_IS_NOT_TYPE")
  else if o.move_time > object_parameter.moving_time_threshold then
    mkOther ("MOVING_OBJECT")
  else if o.longitudinal < -p.object_check_backward_distance then
    mkOther ("OBJECT_IS_BEHIND_THRESHOLD")
  else if o.longitudinal > p.object_check_max_forward_distance then
    mkOther ("OBJECT_IS_IN_FRONT_THRESHOLD")
  else if o.longitudinal > dist_to_goal then mkOther ("OBJECT_BEHIND_PATH_GOAL")
  else if o.longitudinal + o.length / 2 + p.object_check_goal_distance > dist_to_goal then
    mkOther ("TooNearToGoal")
  else if !o.closest_lanelet_found then mkDropped
  else
    let avoid_margin := avoidMarginFor object_parameter.safety_buffer_lateral
      object_parameter.avoid_margin_lateral o.distance_factor vehicle_width
      p.soft_road_shoulder_margin p.hard_road_shoulder_margin o.to_road_shoulder_distance
    match rejectedByShiftCheck p o avoid_margin with
    | some reason => mkOther reason
    | none =>
      if !isVehicleTypeObject o then
        if isWithinCrosswalk o then mkOther ("CrosswalkUser")
        else mkTarget avoid_margin now
      else if forceAvoidanceTarget p o then mkTarget avoid_margin now
      else if |o.lateral| < p.threshold_distance_object_is_on_center then
        mkOther ("TOO_NEAR_TO_CENTERLINE")
      else if o.is_in_ego_lane then
        if o.turn_direction == ("right") || o.turn_direction == ("left") ||
            o.turn_direction == ("straight") then
          mkOther ("NOT_PARKING_OBJECT")
        else if !isParkedVehicle p o then mkOther ("NOT_PARKING_OBJECT")
        else mkTarget avoid_margin now
      else mkTarget avoid_margin now

/-- One fold step of the loop: append the object to the partition its
destination names, or skip it. -/
def filterStep (p : AvoidanceParameters) (vehicle_width dist_to_goal now : ℚ)
    (acc : List (ObjIn × ObjOut) × List (ObjIn × ObjOut)) (o : ObjIn) :
    List (ObjIn × ObjOut) × List (ObjIn × ObjOut) :=
  let r := classifyObject p vehicle_width dist_to_goal now o
  match r.dest with
  | Dest.toTarget => (acc.1 ++ [(o, r)], acc.2)
  | Dest.toOther => (acc.1, acc.2 ++ [(o, r)])
  | Dest.dropped => acc

/-- filterTargetObjects: returns (target_objects, other_objects) built by
the loop; with empty current lanelets the function returns at once and
both partitions stay empty. -/
def filterTargetObjects (p : AvoidanceParameters) (vehicle_width : ℚ)
    (current_lanelets_empty : Bool) (dist_to_goal now : ℚ) (objects : List ObjIn) :
    List (ObjIn × ObjOut) × List (ObjIn × ObjOut) :=
  if current_lanelets_empty then ([], [])
  else objects.foldl (filterStep p vehicle_width dist_to_goal now) ([], [])

/-- The time-free projection of a partition entry: everything but the
last_seen stamp. -/
def stripTime (x : ObjIn × ObjOut) : ObjIn × Dest × String × Option ℚ :=
  (x.1, x.2.dest, x.2.reason, x.2.avoid_margin)

/-! ## Theorems -/

/-- C1: in filterTargetObjects, for every object that reaches the margin
computation (classifyObject computes its margin with avoidMarginFor at
exactly that point), the avoid margin is selected exactly as the spec
states it: with max_avoid_margin = safety_buffer_lateral*distance_factor +
avoid_margin_lateral + 0.5*vehicle_width and min_avoid_margin =
safety_buffer_lateral + 0.5*vehicle_width, and soft/hard limits obtained
by subtracting the configured soft/hard road-shoulder margin and half the
vehicle width from to_road_shoulder_distance, the result is none if
hard_limit < min_avoid_margin, min_avoid_margin if
soft_limit < min_avoid_margin, and min(soft_limit, max_avoid_margin)
otherwise. -/
theorem avoidMargin_refines_spec (safety_buffer_lateral avoid_margin_lateral
    distance_factor vehicle_width soft_road_shoulder_margin hard_road_shoulder_margin
    to_road_shoulder_distance : ℚ) :
    avoidMarginFor safety_buffer_lateral avoid_margin_lateral distance_factor
      vehicle_width soft_road_shoulder_margin hard_road_shoulder_margin
      to_road_shoulder_distance =
    avoidMarginSpec safety_buffer_lateral avoid_margin_lateral distance_factor
      vehicle_width soft_road_shoulder_margin hard_road_shoulder_margin
      to_road_shoulder_distance := rfl

/-- C2: the division by the raw distance-to-shoulder in
extendToRoadShoulderDistanceWithPolygon is not guarded: once an expandable
polygon exists, ratio = 100.0 / to_road_shoulder_distance is computed even
at to_road_shoulder_distance = 0 (the embedding returns none exactly when
that unguarded division is reached with a zero denominator), while the
only early return is the empty expandable-polygon list. -/
theorem extendToRoadShoulder_unguarded_division :
    extendToRoadShoulderDistanceWithPolygon distSq [[⟨0, 0⟩, ⟨1, 0⟩, ⟨1, 1⟩]]
      ⟨0, 0⟩ ⟨0, 0⟩ 0 = none ∧
    extendToRoadShoulderDistanceWithPolygon distSq [] ⟨0, 0⟩ ⟨0, 0⟩ 0 = some 0 := by
  constructor <;> rfl

/-- C3: fillAvoidanceNecessity checks an object whose registered entry has
avoid_required true with the expanded hysteresis factor
hysteresis_factor_expand_rate, and an object registered with
avoid_required false - or not registered at all - with factor 1.0, always
against safety_margin = 0.5*vehicle_width +
safety_buffer_lateral*distance_factor. -/
theorem fillAvoidanceNecessity_hysteresis_cases (object_id : Nat) (is_on_right : Bool)
    (overhang_dist vehicle_width safety_buffer_lateral distance_factor expand_rate : ℚ)
    (registered_objects : List RegisteredNecessity) :
    (∀ same_id_obj,
      registered_objects.find? (fun r => r.object_id == object_id) = some same_id_obj →
      fillAvoidanceNecessity object_id is_on_right overhang_dist vehicle_width
          safety_buffer_lateral distance_factor expand_rate registered_objects =
        checkNecessity is_on_right overhang_dist
          (1 / 2 * vehicle_width + safety_buffer_lateral * distance_factor)
          (if same_id_obj.avoid_required then expand_rate else 1)) ∧
    (registered_objects.find? (fun r => r.object_id == object_id) = none →
      fillAvoidanceNecessity object_id is_on_right overhang_dist vehicle_width
          safety_buffer_lateral distance_factor expand_rate registered_objects =
        checkNecessity is_on_right overhang_dist
          (1 / 2 * vehicle_width + safety_buffer_lateral * distance_factor) 1) := by
  constructor
  · intro same_id_obj hfind
    unfold fillAvoidanceNecessity
    rw [hfind]
    cases h : same_id_obj.avoid_required <;> simp [h]
  · intro hfind
    unfold fillAvoidanceNecessity
    rw [hfind]

/-- Witness for C3: a registered entry with avoid_required true is checked
with the expanded factor. -/
theorem fillAvoidanceNecessity_hysteresis_witness :
    fillAvoidanceNecessity 1 true 2 2 1 1 2 [⟨1, true⟩] = checkNecessity true 2 2 2 := by
  have h := (fillAvoidanceNecessity_hysteresis_cases 1 true 2 2 1 1 2 [⟨1, true⟩]).1
    ⟨1, true⟩ rfl
  norm_num at h
  exact h

/-- C6: isComfortable returns true exactly when every shift line's lateral
jerk, computed by the jerk-from-distance relation from the line's relative
shift length, relative longitudinal distance and the avoidance ego speed,
stays below the lateral max jerk limit. -/
theorem isComfortable_iff_jerk_bound (calcJerk : ℚ → ℚ → ℚ → ℚ)
    (ego_speed jerk_limit : ℚ) (shift_lines : List AvoidLine) :
    isComfortable calcJerk ego_speed jerk_limit shift_lines = true ↔
      ∀ line ∈ shift_lines,
        calcJerk (getRelativeLength line) (getRelativeLongitudinal line) ego_speed
          < jerk_limit := by
  simp [isComfortable, List.all_eq_true]

/-- C8: getCurrentLanesFromPath fails exactly on an empty path or an empty
first lane-id list, and for every path whose first point has a nonempty
lane-id list it returns the route handler's lanelet sequence without
raising on those checks. -/
theorem getCurrentLanesFromPath_fatal_checks (path_points : List PathPointLane)
    (laneSeq : Nat → List Nat) :
    ((∃ msg, getCurrentLanesFromPath path_points laneSeq = Except.error msg) ↔
      path_points = [] ∨
        ∃ pt rest, path_points = pt :: rest ∧ pt.lane_ids = []) ∧
    (∀ pt rest i ids, path_points = pt :: rest → pt.lane_ids = i :: ids →
      getCurrentLanesFromPath path_points laneSeq = Except.ok (laneSeq i)) := by
  constructor
  · cases path_points with
    | nil => simp [getCurrentLanesFromPath]
    | cons pt rest =>
      cases h : pt.lane_ids with
      | nil => simp [getCurrentLanesFromPath, h]
      | cons i ids => simp [getCurrentLanesFromPath, h]
  · intro pt rest i ids hp hl
    subst hp
    simp [getCurrentLanesFromPath, hl]

/-- The duplicate test of combineRawShiftLinesWithUniqueCheck, unfolded to
inequalities: some base line shares the parent object id and lies within
the position and shift tolerances. -/
lemma any_duplicate_iff (base_lines : List AvoidLine) (al : AvoidLine) :
    base_lines.any (fun bl => hasSameObjectId al bl && isSimilar al bl) = true ↔
      ∃ bl ∈ base_lines, al.object_id = bl.object_id ∧
        distSq al.start bl.start ≤ 1 ∧ distSq al.endp bl.endp ≤ 1 ∧
        |al.end_shift_length - bl.end_shift_length| ≤ 1 / 2 := by
  rw [List.any_eq_true]
  constructor
  · rintro ⟨bl, hmem, hb⟩
    rw [Bool.and_eq_true] at hb
    refine ⟨bl, hmem, ?_, ?_⟩
    · have hid := hb.1
      unfold hasSameObjectId at hid
      simpa using hid
    · have h := hb.2
      unfold isSimilar at h
      split_ifs at h with h1 h2 h3
      exact ⟨le_of_not_lt h1, le_of_not_lt h2, le_of_not_lt h3⟩
  · rintro ⟨bl, hmem, hid, h1, h2, h3⟩
    refine ⟨bl, hmem, ?_⟩
    rw [Bool.and_eq_true]
    constructor
    · unfold hasSameObjectId
      simp [hid]
    · unfold isSimilar
      split_ifs with g1 g2 g3
      · exact absurd h1 (not_le.mpr g1)
      · exact absurd h2 (not_le.mpr g2)
      · exact absurd h3 (not_le.mpr g3)
      · rfl

/-- The source loop of combineRawShiftLinesWithUniqueCheck, folded from any
accumulator, appends exactly the added lines that trip no duplicate
test. -/
lemma combine_fold_eq_filter (base_lines : List AvoidLine) :
    ∀ (added_lines acc : List AvoidLine),
      added_lines.foldl
        (fun combined added_line =>
          if base_lines.any (fun base_line =>
              hasSameObjectId added_line base_line && isSimilar added_line base_line) then
            combined
          else combined ++ [added_line]) acc =
      acc ++ added_lines.filter (fun added_line =>
        !(base_lines.any (fun base_line =>
          hasSameObjectId added_line base_line && isSimilar added_line base_line))) := by
  intro added_lines
  induction added_lines with
  | nil => intro acc; simp
  | cons al rest ih =>
    intro acc
    simp only [List.foldl_cons, List.filter_cons]
    by_cases h : base_lines.any (fun base_line =>
        hasSameObjectId al base_line && isSimilar al base_line) = true
    · rw [if_pos h, ih]
      simp [h]
    · rw [if_neg h, ih]
      simp only [Bool.not_eq_true] at h
      simp [h, List.append_assoc]

/-- C7: combineRawShiftLinesWithUniqueCheck returns the base (registered)
lines followed by exactly those added lines that are not duplicates; an
added line is a duplicate iff some base line has the same parent object
id, start and end poses each within 1.0 (squared distance at most 1), and
end shift length within 0.5; every base line is present in the output. -/
theorem combineRawShiftLines_unique_check_spec (base_lines added_lines : List AvoidLine) :
    combineRawShiftLinesWithUniqueCheck base_lines added_lines =
      base_lines ++ added_lines.filter (fun added_line =>
        !(base_lines.any (fun base_line =>
          hasSameObjectId added_line base_line && isSimilar added_line base_line))) ∧
    (∀ al, base_lines.any (fun bl => hasSameObjectId al bl && isSimilar al bl) = true ↔
      ∃ bl ∈ base_lines, al.object_id = bl.object_id ∧
        distSq al.start bl.start ≤ 1 ∧ distSq al.endp bl.endp ≤ 1 ∧
        |al.end_shift_length - bl.end_shift_length| ≤ 1 / 2) ∧
    (∀ b ∈ base_lines, b ∈ combineRawShiftLinesWithUniqueCheck base_lines added_lines) := by
  have hfold := combine_fold_eq_filter base_lines added_lines base_lines
  refine ⟨hfold, fun al => any_duplicate_iff base_lines al, fun b hb => ?_⟩
  rw [combineRawShiftLinesWithUniqueCheck, hfold]
  exact List.mem_append_left _ hb

/-! ### Envelope monotonicity (C4) -/

/-- Bounding-box accumulation only widens the accumulator's bounds. -/
lemma bboxFold_le (ps : List Pt) : ∀ b : Box,
    (bboxFold b ps).xmin ≤ b.xmin ∧ b.xmax ≤ (bboxFold b ps).xmax ∧
    (bboxFold b ps).ymin ≤ b.ymin ∧ b.ymax ≤ (bboxFold b ps).ymax := by
  induction ps with
  | nil => intro b; simp [bboxFold]
  | cons q qs ih =>
    intro b
    have h := ih (bboxStep b q)
    simp only [bboxFold]
    simp only [bboxStep] at h
    exact ⟨le_trans h.1 (min_le_left _ _), le_trans (le_max_left _ _) h.2.1,
      le_trans h.2.2.1 (min_le_left _ _), le_trans (le_max_left _ _) h.2.2.2⟩

/-- Every accumulated point lies inside the accumulated bounding box. -/
lemma bboxFold_mem (ps : List Pt) : ∀ (b : Box) (p : Pt), p ∈ ps →
    (bboxFold b ps).xmin ≤ p.x ∧ p.x ≤ (bboxFold b ps).xmax ∧
    (bboxFold b ps).ymin ≤ p.y ∧ p.y ≤ (bboxFold b ps).ymax := by
  induction ps with
  | nil => intro b p h; simp at h
  | cons q qs ih =>
    intro b p h
    simp only [bboxFold]
    rcases List.mem_cons.mp h with rfl | h2
    · have h1 := bboxFold_le qs (bboxStep b p)
      simp only [bboxStep] at h1
      exact ⟨le_trans h1.1 (min_le_right _ _), le_trans (le_max_right _ _) h1.2.1,
        le_trans h1.2.2.1 (min_le_right _ _), le_trans (le_max_right _ _) h1.2.2.2⟩
    · exact ih (bboxStep b q) p h2

/-- Every vertex lies inside the bounding box of its list. -/
lemma bboxOf_mem (pts : List Pt) (p : Pt) (h : p ∈ pts) :
    (bboxOf pts).xmin ≤ p.x ∧ p.x ≤ (bboxOf pts).xmax ∧
    (bboxOf pts).ymin ≤ p.y ∧ p.y ≤ (bboxOf pts).ymax := by
  cases pts with
  | nil => simp at h
  | cons q qs =>
    simp only [bboxOf]
    rcases List.mem_cons.mp h with rfl | h2
    · have h1 := bboxFold_le qs ⟨p.x, p.x, p.y, p.y⟩
      exact ⟨h1.1, h1.2.1, h1.2.2.1, h1.2.2.2⟩
    · exact bboxFold_mem qs ⟨q.x, q.x, q.y, q.y⟩ p h2

/-- Expanding a box by a zero margin changes nothing. -/
lemma expandBox_zero (b : Box) : expandBox b 0 = b := by
  cases b
  simp [expandBox]

/-- Within is reflexive on boxes. -/
lemma boxWithin_refl (b : Box) : boxWithin b b = true := by
  simp [boxWithin]

/-- Containment of a valid box gives an area bound. -/
lemma boxArea_mono (a b : Box) (ha : validBox a = true) (hw : boxWithin a b = true) :
    boxArea a ≤ boxArea b := by
  simp only [validBox, boxWithin, Bool.and_eq_true, decide_eq_true_eq] at ha hw
  unfold boxArea
  obtain ⟨⟨⟨w1, w2⟩, w3⟩, w4⟩ := hw
  obtain ⟨a1, a2⟩ := ha
  exact mul_le_mul (by linarith) (by linarith) (by linarith) (by linarith)

/-- A box lies within the bounding box of any vertex list that carries its
corners. -/
lemma boxWithin_bbox_append (xs : List Pt) (b : Box) :
    boxWithin b (bboxOf (xs ++ boxCorners b)) = true := by
  have h1 : (⟨b.xmin, b.ymin⟩ : Pt) ∈ xs ++ boxCorners b := by
    simp [boxCorners]
  have h2 : (⟨b.xmax, b.ymax⟩ : Pt) ∈ xs ++ boxCorners b := by
    simp [boxCorners]
  have m1 := bboxOf_mem _ _ h1
  have m2 := bboxOf_mem _ _ h2
  simp only [boxWithin, Bool.and_eq_true, decide_eq_true_eq]
  exact ⟨⟨⟨m1.1, m2.2.1⟩, m1.2.2.1⟩, m2.2.2.2⟩

/-- C4: when a registered object with the same id exists and the fresh
envelope meets the prior one (as it does for a stationary object, both
containing its footprint), the new envelope produced by
fillObjectEnvelopePolygon either is the prior envelope (when the fresh one
lies within it) or is the envelope of the union of the fresh and prior
polygons; in both cases it contains the prior envelope and its area is no
smaller, so across consecutive cycles the envelope is non-decreasing until
the object moves away or is lost. -/
theorem fillObjectEnvelopePolygon_monotone (object_id : Nat) (footprint : List Pt)
    (envelope_buffer_margin : ℚ) (registered_objects : List (Nat × Box))
    (entry : Nat × Box)
    (hfind : registered_objects.find? (fun r => r.1 == object_id) = some entry)
    (hvalid : validBox entry.2 = true)
    (hmeet : boxesIntersect (createEnvelopePolygon footprint envelope_buffer_margin)
      entry.2 = true) :
    (fillObjectEnvelopePolygon object_id footprint envelope_buffer_margin
        registered_objects = entry.2 ∨
      fillObjectEnvelopePolygon object_id footprint envelope_buffer_margin
          registered_objects =
        createEnvelopePolygon
          (boxCorners (createEnvelopePolygon footprint envelope_buffer_margin) ++
            boxCorners entry.2) 0) ∧
    boxWithin entry.2 (fillObjectEnvelopePolygon object_id footprint
      envelope_buffer_margin registered_objects) = true ∧
    boxArea entry.2 ≤ boxArea (fillObjectEnvelopePolygon object_id footprint
      envelope_buffer_margin registered_objects) := by
  unfold fillObjectEnvelopePolygon
  rw [hfind]
  dsimp only
  by_cases hw : boxWithin (createEnvelopePolygon footprint envelope_buffer_margin)
      entry.2 = true
  · rw [if_pos hw]
    exact ⟨Or.inl rfl, boxWithin_refl _, le_refl _⟩
  · rw [if_neg hw]
    unfold boostUnion
    rw [if_pos hmeet]
    have hcontain : boxWithin entry.2
        (createEnvelopePolygon
          (boxCorners (createEnvelopePolygon footprint envelope_buffer_margin) ++
            boxCorners entry.2) 0) = true := by
      unfold createEnvelopePolygon
      rw [expandBox_zero]
      exact boxWithin_bbox_append _ _
    exact ⟨Or.inr rfl, hcontain, boxArea_mono _ _ hvalid hcontain⟩

/-- Witness for C4: a concrete fresh envelope meeting a concrete prior
envelope yields a new envelope containing the prior with no smaller
area. -/
theorem fillObjectEnvelopePolygon_monotone_witness :
    boxWithin (⟨-1, 1, -1, 1⟩ : Box)
      (fillObjectEnvelopePolygon 7 [⟨0, 0⟩, ⟨2, 1⟩] 0 [(7, ⟨-1, 1, -1, 1⟩)]) = true ∧
    boxArea (⟨-1, 1, -1, 1⟩ : Box) ≤
      boxArea (fillObjectEnvelopePolygon 7 [⟨0, 0⟩, ⟨2, 1⟩] 0 [(7, ⟨-1, 1, -1, 1⟩)]) := by
  have h := fillObjectEnvelopePolygon_monotone 7 [⟨0, 0⟩, ⟨2, 1⟩] 0
    [(7, ⟨-1, 1, -1, 1⟩)] (7, ⟨-1, 1, -1, 1⟩) (by decide) (by decide)
    (by norm_num [boxesIntersect, createEnvelopePolygon, bboxOf, bboxFold, bboxStep,
      expandBox])
  exact ⟨h.2.1, h.2.2⟩

/-- The time-free projection of a loop-body result. -/
def projOut (r : ObjOut) : Dest × String × Option ℚ :=
  (r.dest, r.reason, r.avoid_margin)

lemma classifyObject_proj_time (p : AvoidanceParameters) (vw dg t1 t2 : ℚ) (o : ObjIn) :
    projOut (classifyObject p vw dg t1 o) = projOut (classifyObject p vw dg t2 o) := by
  unfold classifyObject
  dsimp only
  by_cases hA1 : (!isTargetObjectType p o) = true
  · simp only [if_pos hA1]
  simp only [if_neg hA1]
  by_cases hA2 : o.move_time > (p.object_parameters o.classification).moving_time_threshold
  · simp only [if_pos hA2]
  simp only [if_neg hA2]
  by_cases hA3 : o.longitudinal < -p.object_check_backward_distance
  · simp only [if_pos hA3]
  simp only [if_neg hA3]
  by_cases hA4 : o.longitudinal > p.object_check_max_forward_distance
  · simp only [if_pos hA4]
  simp only [if_neg hA4]
  by_cases hA5 : o.longitudinal > dg
  · simp only [if_pos hA5]
  simp only [if_neg hA5]
  by_cases hA6 : o.longitudinal + o.length / 2 + p.object_check_goal_distance > dg
  · simp only [if_pos hA6]
  simp only [if_neg hA6]
  by_cases hA7 : (!o.closest_lanelet_found) = true
  · simp only [if_pos hA7]
  simp only [if_neg hA7]
  cases hM : rejectedByShiftCheck p o
      (avoidMarginFor (p.object_parameters o.classification).safety_buffer_lateral
        (p.object_parameters o.classification).avoid_margin_lateral o.distance_factor vw
        p.soft_road_shoulder_margin p.hard_road_shoulder_margin
        o.to_road_shoulder_distance) with
  | some reason => simp only [hM]
  | none =>
    simp only [hM]
    by_cases hA8 : (!isVehicleTypeObject o) = true
    · simp only [if_pos hA8]
      by_cases hA9 : isWithinCrosswalk o = true
      · simp only [if_pos hA9]
      simp only [if_neg hA9]
      rfl
    simp only [if_neg hA8]
    by_cases hA10 : forceAvoidanceTarget p o = true
    · simp only [if_pos hA10]
      rfl
    simp only [if_neg hA10]
    by_cases hA11 : |o.lateral| < p.threshold_distance_object_is_on_center
    · simp only [if_pos hA11]
    simp only [if_neg hA11]
    by_cases hA12 : o.is_in_ego_lane = true
    · simp only [if_pos hA12]
      by_cases hA13 : (o.turn_direction == ("right") || o.turn_direction == ("left") ||
          o.turn_direction == ("straight")) = true
      · simp only [if_pos hA13]
      simp only [if_neg hA13]
      by_cases hA14 : (!isParkedVehicle p o) = true
      · simp only [if_pos hA14]
      simp only [if_neg hA14]
      rfl
    simp only [if_neg hA12]
    rfl

/-- One loop step from any accumulators: the appended tail is the step from
empty accumulators. -/
lemma filterStep_acc (p : AvoidanceParameters) (vw dg now : ℚ)
    (acc : List (ObjIn × ObjOut) × List (ObjIn × ObjOut)) (o : ObjIn) :
    (filterStep p vw dg now acc o).1 = acc.1 ++ (filterStep p vw dg now ([], []) o).1 ∧
    (filterStep p vw dg now acc o).2 = acc.2 ++ (filterStep p vw dg now ([], []) o).2 := by
  unfold filterStep
  dsimp only
  cases (classifyObject p vw dg now o).dest <;> simp

/-- The loop from any accumulators appends what the loop from empty
accumulators produces. -/
lemma filterFold_append (p : AvoidanceParameters) (vw dg now : ℚ) :
    ∀ (objects : List ObjIn) (acc : List (ObjIn × ObjOut) × List (ObjIn × ObjOut)),
      (List.foldl (filterStep p vw dg now) acc objects).1 =
        acc.1 ++ (List.foldl (filterStep p vw dg now) ([], []) objects).1 ∧
      (List.foldl (filterStep p vw dg now) acc objects).2 =
        acc.2 ++ (List.foldl (filterStep p vw dg now) ([], []) objects).2 := by
  intro objects
  induction objects with
  | nil => intro acc; simp
  | cons o os ih =>
    intro acc
    simp only [List.foldl_cons]
    obtain ⟨i1, i2⟩ := ih (filterStep p vw dg now acc o)
    obtain ⟨j1, j2⟩ := ih (filterStep p vw dg now ([], []) o)
    obtain ⟨s1, s2⟩ := filterStep_acc p vw dg now acc o
    constructor
    · rw [i1, j1, s1, List.append_assoc]
    · rw [i2, j2, s2, List.append_assoc]

/-- Each object of the list lands, with its loop-body result, in the
partition its destination names. -/
lemma mem_filterFold (p : AvoidanceParameters) (vw dg now : ℚ) :
    ∀ (objects : List ObjIn) (o : ObjIn), o ∈ objects →
      ((classifyObject p vw dg now o).dest = Dest.toTarget →
        (o, classifyObject p vw dg now o) ∈
          (List.foldl (filterStep p vw dg now) ([], []) objects).1) ∧
      ((classifyObject p vw dg now o).dest = Dest.toOther →
        (o, classifyObject p vw dg now o) ∈
          (List.foldl (filterStep p vw dg now) ([], []) objects).2) := by
  intro objects
  induction objects with
  | nil => intro o h; simp at h
  | cons q qs ih =>
    intro o h
    simp only [List.foldl_cons]
    rcases List.mem_cons.mp h with rfl | h2
    · obtain ⟨A1, A2⟩ := filterFold_append p vw dg now qs (filterStep p vw dg now ([], []) o)
      constructor
      · intro hd
        have hs : filterStep p vw dg now ([], []) o =
            ([(o, classifyObject p vw dg now o)], []) := by
          unfold filterStep
          dsimp only
          rw [hd]
          rfl
        rw [A1, hs]
        simp
      · intro hd
        have hs : filterStep p vw dg now ([], []) o =
            ([], [(o, classifyObject p vw dg now o)]) := by
          unfold filterStep
          dsimp only
          rw [hd]
          rfl
        rw [A2, hs]
        simp
    · obtain ⟨A1, A2⟩ := filterFold_append p vw dg now qs (filterStep p vw dg now ([], []) q)
      obtain ⟨B1, B2⟩ := ih o h2
      constructor
      · intro hd
        rw [A1]
        exact List.mem_append_right _ (B1 hd)
      · intro hd
        rw [A2]
        exact List.mem_append_right _ (B2 hd)

/-- One loop step preserves equality of the time-free projections. -/
lemma filterStep_proj (p : AvoidanceParameters) (vw dg t1 t2 : ℚ)
    (acc1 acc2 : List (ObjIn × ObjOut) × List (ObjIn × ObjOut)) (o : ObjIn)
    (h1 : acc1.1.map stripTime = acc2.1.map stripTime)
    (h2 : acc1.2.map stripTime = acc2.2.map stripTime) :
    (filterStep p vw dg t1 acc1 o).1.map stripTime =
      (filterStep p vw dg t2 acc2 o).1.map stripTime ∧
    (filterStep p vw dg t1 acc1 o).2.map stripTime =
      (filterStep p vw dg t2 acc2 o).2.map stripTime := by
  have hp := classifyObject_proj_time p vw dg t1 t2 o
  have hd : (classifyObject p vw dg t1 o).dest = (classifyObject p vw dg t2 o).dest :=
    congrArg Prod.fst hp
  have hstrip : stripTime (o, classifyObject p vw dg t1 o) =
      stripTime (o, classifyObject p vw dg t2 o) := by
    show (o, projOut (classifyObject p vw dg t1 o)) =
      (o, projOut (classifyObject p vw dg t2 o))
    rw [hp]
  unfold filterStep
  dsimp only
  cases hc : (classifyObject p vw dg t1 o).dest with
  | toTarget =>
    rw [hc] at hd
    rw [← hd]
    simp [h1, h2, hstrip]
  | toOther =>
    rw [hc] at hd
    rw [← hd]
    simp [h1, h2, hstrip]
  | dropped =>
    rw [hc] at hd
    rw [← hd]
    simp [h1, h2]

/-- The loop preserves equality of the time-free projections. -/
lemma filterFold_proj (p : AvoidanceParameters) (vw dg t1 t2 : ℚ) :
    ∀ (objects : List ObjIn)
      (acc1 acc2 : List (ObjIn × ObjOut) × List (ObjIn × ObjOut)),
      acc1.1.map stripTime = acc2.1.map stripTime →
      acc1.2.map stripTime = acc2.2.map stripTime →
      (List.foldl (filterStep p vw dg t1) acc1 objects).1.map stripTime =
        (List.foldl (filterStep p vw dg t2) acc2 objects).1.map stripTime ∧
      (List.foldl (filterStep p vw dg t1) acc1 objects).2.map stripTime =
        (List.foldl (filterStep p vw dg t2) acc2 objects).2.map stripTime := by
  intro objects
  induction objects with
  | nil => intro acc1 acc2 h1 h2; simpa using ⟨h1, h2⟩
  | cons o os ih =>
    intro acc1 acc2 h1 h2
    simp only [List.foldl_cons]
    obtain ⟨s1, s2⟩ := filterStep_proj p vw dg t1 t2 acc1 acc2 o h1 h2
    exact ih _ _ s1 s2

/-- C9: filterTargetObjects is deterministic with respect to the
target/other partition, the reason codes and the stored margins: the only
input the source reads that can differ between two runs on an identical
object set and identical planning data is the clock (now, written into
last_seen), and the partitions with their reasons and margins do not
depend on it; in particular two runs on identical inputs agree on
everything but the stamps. -/
theorem filterTargetObjects_deterministic (p : AvoidanceParameters) (vw : ℚ)
    (current_lanelets_empty : Bool) (dg t1 t2 : ℚ) (objects : List ObjIn) :
    (filterTargetObjects p vw current_lanelets_empty dg t1 objects).1.map stripTime =
      (filterTargetObjects p vw current_lanelets_empty dg t2 objects).1.map stripTime ∧
    (filterTargetObjects p vw current_lanelets_empty dg t1 objects).2.map stripTime =
      (filterTargetObjects p vw current_lanelets_empty dg t2 objects).2.map stripTime := by
  unfold filterTargetObjects
  by_cases hc : current_lanelets_empty = true
  · rw [if_pos hc, if_pos hc]
    exact ⟨rfl, rfl⟩
  · rw [if_neg hc, if_neg hc]
    exact filterFold_proj p vw dg t1 t2 objects ([], []) ([], []) rfl rfl

/-- C5: a non-vehicle object that reaches the crosswalk check of
filterTargetObjects (it survives the type, moving, distance and
shift-length screenings) is pushed to other_objects with reason
CrosswalkUser when it is within 2.0 of a conflicting crosswalk polygon -
so it never reaches target_objects and generates no shift line - and is
pushed to target_objects otherwise, whatever the avoid margin (derivable
or not). -/
theorem filterTargetObjects_crosswalk_user (p : AvoidanceParameters)
    (vw dg now : ℚ) (objects : List ObjIn) (o : ObjIn)
    (hmem : o ∈ objects)
    (h1 : isTargetObjectType p o = true)
    (h2 : ¬(o.move_time > (p.object_parameters o.classification).moving_time_threshold))
    (h3 : ¬(o.longitudinal < -p.object_check_backward_distance))
    (h4 : ¬(o.longitudinal > p.object_check_max_forward_distance))
    (h5 : ¬(o.longitudinal > dg))
    (h6 : ¬(o.longitudinal + o.length / 2 + p.object_check_goal_distance > dg))
    (h7 : o.closest_lanelet_found = true)
    (h8 : rejectedByShiftCheck p o
      (avoidMarginFor (p.object_parameters o.classification).safety_buffer_lateral
        (p.object_parameters o.classification).avoid_margin_lateral o.distance_factor vw
        p.soft_road_shoulder_margin p.hard_road_shoulder_margin
        o.to_road_shoulder_distance) = none)
    (h9 : isVehicleTypeObject o = false) :
    (isWithinCrosswalk o = true →
      (o, mkOther ("CrosswalkUser")) ∈ (filterTargetObjects p vw false dg now objects).2) ∧
    (isWithinCrosswalk o = false →
      (o, mkTarget
          (avoidMarginFor (p.object_parameters o.classification).safety_buffer_lateral
            (p.object_parameters o.classification).avoid_margin_lateral o.distance_factor vw
            p.soft_road_shoulder_margin p.hard_road_shoulder_margin
            o.to_road_shoulder_distance) now) ∈
        (filterTargetObjects p vw false dg now objects).1) := by
  have hcls : classifyObject p vw dg now o =
      (if isWithinCrosswalk o = true then mkOther ("CrosswalkUser")
        else mkTarget
          (avoidMarginFor (p.object_parameters o.classification).safety_buffer_lateral
            (p.object_parameters o.classification).avoid_margin_lateral o.distance_factor vw
            p.soft_road_shoulder_margin p.hard_road_shoulder_margin
            o.to_road_shoulder_distance) now) := by
    unfold classifyObject
    dsimp only
    have n1 : ¬((!isTargetObjectType p o) = true) := by simp [h1]
    have n7 : ¬((!o.closest_lanelet_found) = true) := by simp [h7]
    have p9 : (!isVehicleTypeObject o) = true := by simp [h9]
    rw [if_neg n1, if_neg h2, if_neg h3, if_neg h4, if_neg h5, if_neg h6, if_neg n7]
    simp only [h8]
    rw [if_pos p9]
  constructor
  · intro hw
    have hres : classifyObject p vw dg now o = mkOther ("CrosswalkUser") := by
      rw [hcls, if_pos hw]
    have hm := (mem_filterFold p vw dg now objects o hmem).2
    rw [hres] at hm
    have hin := hm rfl
    simpa [filterTargetObjects] using hin
  · intro hw
    have nw : ¬(isWithinCrosswalk o = true) := by simp [hw]
    have hres : classifyObject p vw dg now o = mkTarget
        (avoidMarginFor (p.object_parameters o.classification).safety_buffer_lateral
          (p.object_parameters o.classification).avoid_margin_lateral o.distance_factor vw
          p.soft_road_shoulder_margin p.hard_road_shoulder_margin
          o.to_road_shoulder_distance) now := by
      rw [hcls, if_neg nw]
    have hm := (mem_filterFold p vw dg now objects o hmem).1
    rw [hres] at hm
    have hin := hm rfl
    simpa [filterTargetObjects] using hin

/-- A concrete parameter set used by the closed instances below. -/
def pEx : AvoidanceParameters :=
  { object_parameters := fun _ => ⟨true, 1, 1 / 2, 1 / 2⟩
    object_parameters_count := fun _ => true
    object_check_backward_distance := 10
    object_check_max_forward_distance := 150
    object_check_goal_distance := 1
    soft_road_shoulder_margin := 1 / 2
    hard_road_shoulder_margin := 1 / 5
    lateral_execution_threshold := 1 / 10
    enable_force_avoidance_for_stopped_vehicle := false
    threshold_time_force_avoidance_for_stopped_vehicle := 10
    object_ignore_section_traffic_light_in_front_distance := 5
    object_ignore_section_crosswalk_in_front_distance := 5
    object_ignore_section_crosswalk_behind_distance := 5
    threshold_distance_object_is_on_center := 1
    object_check_shiftable_rate := 1 / 2
    object_check_min_road_shoulder_width := 1 / 2 }

/-- A concrete pedestrian standing 1.0 away from a conflicting crosswalk
polygon, passing every screening before the crosswalk check. -/
def oPedEx : ObjIn :=
  { object_id := 3
    classification := ObjClass.pedestrian
    move_time := 0
    stop_time := 0
    longitudinal := 10
    length := 2
    lateral := 2
    overhang_dist := 0
    distance_factor := 1
    position := ⟨0, 0⟩
    crosswalk_polygons := [[⟨1, 0⟩, ⟨3, 0⟩, ⟨3, 2⟩, ⟨1, 2⟩]]
    closest_lanelet_found := true
    to_road_shoulder_distance := 5
    to_traffic_light := 100
    to_crosswalk_ego := 100
    is_in_ego_lane := false
    turn_direction := ("else")
    center_to_boundary := 3
    shape_dim_y := 2
    sub_type_is_road_shoulder := false
    arc_distance := 2 }

/-- A concrete car passing the type, moving and distance screenings for
which no closest lanelet within the route is found. -/
def oCarEx : ObjIn :=
  { oPedEx with
    classification := ObjClass.car
    closest_lanelet_found := false
    crosswalk_polygons := [] }

/-- Witness for C5: the concrete pedestrian lands in other_objects as a
CrosswalkUser. -/
theorem filterTargetObjects_crosswalk_user_witness :
    (oPedEx, mkOther ("CrosswalkUser")) ∈
      (filterTargetObjects pEx 2 false 100 0 [oPedEx]).2 := by
  have h := filterTargetObjects_crosswalk_user pEx 2 100 0 [oPedEx] oPedEx
    (by simp)
    (by rfl)
    (by norm_num [pEx, oPedEx])
    (by norm_num [pEx, oPedEx])
    (by norm_num [pEx, oPedEx])
    (by norm_num [oPedEx])
    (by norm_num [pEx, oPedEx])
    (by rfl)
    (by norm_num [rejectedByShiftCheck, avoidMarginFor, calcShiftLength, isShiftNecessary,
      isOnRight, pEx, oPedEx])
    (by rfl)
  exact h.1 (by norm_num [isWithinCrosswalk, distToPolygonLt, pointInPolygon, polygonEdges,
    segDistSq, distSq, oPedEx])

/-- C10: the partition of filterTargetObjects is not total: the concrete
car passes the type, moving and distance checks, but no closest lanelet
within the route is found for it, and it lands in neither target_objects
nor other_objects with no reason code - it is silently dropped for the
cycle. -/
theorem filterTargetObjects_silent_drop :
    isTargetObjectType pEx oCarEx = true ∧
    oCarEx.move_time ≤ (pEx.object_parameters oCarEx.classification).moving_time_threshold ∧
    -pEx.object_check_backward_distance ≤ oCarEx.longitudinal ∧
    oCarEx.longitudinal ≤ pEx.object_check_max_forward_distance ∧
    oCarEx.longitudinal ≤ 100 ∧
    oCarEx.longitudinal + oCarEx.length / 2 + pEx.object_check_goal_distance ≤ 100 ∧
    oCarEx.closest_lanelet_found = false ∧
    filterTargetObjects pEx 2 false 100 0 [oCarEx] = ([], []) := by
  refine ⟨rfl, by norm_num [pEx, oCarEx, oPedEx], by norm_num [pEx, oCarEx, oPedEx],
    by norm_num [pEx, oCarEx, oPedEx], by norm_num [oCarEx, oPedEx],
    by norm_num [pEx, oCarEx, oPedEx], rfl, ?_⟩
  norm_num [filterTargetObjects, filterStep, classifyObject, isTargetObjectType,
    mkDropped, pEx, oCarEx, oPedEx]
